import Mathlib

/-!
Verification of the CLT payroll calculation engine
(`src/lib/calculator.ts` of Calculadora-CLT-Pro).

The engine is a set of pure functions over plain numbers (treated by the
spec as exact real quantities, with no internal rounding), so it is
embedded shallowly with `ℚ` for every monetary amount.  A JavaScript
`Date` is observed by the engine only through `getTime`, `getFullYear`,
`getMonth` and `getDate`, so a date is embedded as exactly those four
observations.
-/

namespace CLT

/-- Result record of `calculateSalary` (`SalaryResult` in the source). -/
structure SalaryResult where
  grossSalary : ℚ
  inss : ℚ
  irrf : ℚ
  netSalary : ℚ
  fgts : ℚ
  discounts : ℚ

/-- Result record of `calculateVacation` (`VacationResult` in the source).
The two optional fields are always assigned by the function (zero when the
sell-ten-days option is off), so they are embedded as plain fields. -/
structure VacationResult where
  baseSalary : ℚ
  vacationValue : ℚ
  oneThirdBonus : ℚ
  grossTotal : ℚ
  inss : ℚ
  irrf : ℚ
  netTotal : ℚ
  abonoPecuniario : ℚ
  abonoOneThird : ℚ

/-- A JavaScript `Date`, embedded as the four observations the termination
calculator makes of it: epoch milliseconds, year, zero-based month and
day of month. -/
structure Date where
  getTime : ℤ
  getFullYear : ℤ
  getMonth : ℕ
  getDate : ℕ

/-- The four termination types of the source union
`'sem-justa-causa' | 'com-justa-causa' | 'pedido-demissao' | 'comum-acordo'`. -/
inductive TerminationType where
  | semJustaCausa
  | comJustaCausa
  | pedidoDemissao
  | comumAcordo
  deriving DecidableEq

/-- Result record of `calculateTermination` (`TerminationResult` in the
source); the two optional fields are always assigned. -/
structure TerminationResult where
  salaryBalance : ℚ
  proportionalThirteenth : ℚ
  proportionalVacation : ℚ
  vacationOneThird : ℚ
  noticePeriod : ℚ
  fgtsFine : ℚ
  grossTotal : ℚ
  inss : ℚ
  irrf : ℚ
  netTotal : ℚ

/-- `calculateINSS` from the source: the 2024/2025 INSS bracket cascade
with a fixed value above the last threshold. -/
def calculateINSS (salary : ℚ) : ℚ :=
  if salary ≤ 1412 then salary * 0.075
  else if salary ≤ 2666.68 then (salary - 1412) * 0.09 + 105.9
  else if salary ≤ 4000.03 then (salary - 2666.68) * 0.12 + 105.9 + 112.92
  else if salary ≤ 7786.02 then (salary - 4000.03) * 0.14 + 105.9 + 112.92 + 160.00
  else 908.85

/-- `calculateIRRF` from the source: deduct the contribution and the
per-dependent allowance, then apply the 2024/2025 IRRF bracket cascade. -/
def calculateIRRF (salary : ℚ) (inss : ℚ) (dependents : ℚ) : ℚ :=
  let base := salary - inss - (dependents * 189.59)
  if base ≤ 2259.20 then 0
  else if base ≤ 2826.65 then (base * 0.075) - 169.44
  else if base ≤ 3751.05 then (base * 0.15) - 381.44
  else if base ≤ 4664.68 then (base * 0.225) - 662.77
  else (base * 0.275) - 896.00

/-- `calculateSalary` from the source. -/
def calculateSalary (grossSalary : ℚ) (dependents : ℚ) (otherDiscounts : ℚ) :
    SalaryResult :=
  let inss := calculateINSS grossSalary
  let irrf := calculateIRRF grossSalary inss dependents
  let fgts := grossSalary * 0.08
  let netSalary := grossSalary - inss - irrf - otherDiscounts
  { grossSalary := grossSalary
    inss := inss
    irrf := irrf
    netSalary := netSalary
    fgts := fgts
    discounts := inss + irrf + otherDiscounts }

/-- `calculateVacation` from the source. -/
def calculateVacation (salary : ℚ) (days : ℚ) (sellTenDays : Bool)
    (dependents : ℚ) (unusedVacationDays : ℚ) (bonuses : ℚ) : VacationResult :=
  let baseForVacation := salary + bonuses
  let dailyRate := baseForVacation / 30
  let vacationValue := dailyRate * days
  let oneThirdBonus := vacationValue / 3
  let unusedVacationValue := dailyRate * unusedVacationDays
  let unusedVacationOneThird := unusedVacationValue / 3
  let abonoPecuniario := if sellTenDays then dailyRate * 10 else 0
  let abonoOneThird := if sellTenDays then (dailyRate * 10) / 3 else 0
  let currentGross := vacationValue + oneThirdBonus
  let inss := calculateINSS currentGross
  let irrf := calculateIRRF currentGross inss dependents
  { baseSalary := baseForVacation
    vacationValue := vacationValue + unusedVacationValue
    oneThirdBonus := oneThirdBonus + unusedVacationOneThird
    grossTotal := currentGross + unusedVacationValue + unusedVacationOneThird
      + abonoPecuniario + abonoOneThird
    inss := inss
    irrf := irrf
    netTotal := (currentGross - inss - irrf) + unusedVacationValue
      + unusedVacationOneThird + abonoPecuniario + abonoOneThird
    abonoPecuniario := abonoPecuniario
    abonoOneThird := abonoOneThird }

/-- The elapsed-day count of `calculateTermination` (source lines 150-151):
`Math.ceil(Math.abs(endDate.getTime() - startDate.getTime()) / (1000*60*60*24))`. -/
def diffDaysTotalOf (startDate endDate : Date) : ℤ :=
  let diffTime : ℤ := |endDate.getTime - startDate.getTime|
  ⌈(diffTime : ℚ) / (1000 * 60 * 60 * 24)⌉

/-- The unclamped `thirteenthMonths` computation of `calculateTermination`
(source lines 161-172), extracted as its own function for reasoning. -/
def thirteenthMonthsRaw (startDate endDate : Date) : ℤ :=
  let endDay : ℕ := endDate.getDate
  let endMonth : ℤ := (endDate.getMonth : ℤ) + 1
  if endDate.getFullYear = startDate.getFullYear then
    let startMonth : ℤ := (startDate.getMonth : ℤ) + 1
    let startDay : ℕ := startDate.getDate
    let m0 := endMonth - startMonth
    let m1 := if startDay ≤ 15 then m0 + 1 else m0
    if endDay < 15 then m1 - 1 else m1
  else
    if 15 ≤ endDay then endMonth else endMonth - 1

/-- The `finalVacationMonths` computation of `calculateTermination`
(source lines 178-180), extracted as its own function for reasoning.
`diffDaysTotal` is non-negative, where JavaScript `%` agrees with
`Int.emod`. -/
def finalVacationMonthsOf (diffDaysTotal : ℤ) : ℤ :=
  let vacationMonths : ℤ := ⌊(diffDaysTotal : ℚ) / 30⌋
  let remainingDays : ℤ := diffDaysTotal % 30
  if 15 ≤ remainingDays then vacationMonths + 1 else vacationMonths

/-- `calculateTermination` from the source.  `Math.abs`, `Math.ceil`,
`Math.floor`, `%` and `Math.max` become `|·|`, `⌈·⌉`, `⌊·⌋`, `Int.emod`
and `max`; the `%` operands are non-negative here, where JavaScript `%`
agrees with `Int.emod`.  The day-count and month-count sub-computations
are the extracted functions above. -/
def calculateTermination (salary : ℚ) (startDate endDate : Date)
    (type : TerminationType) (fgtsBalance : ℚ) (unusedVacationDays : ℚ)
    (bonuses : ℚ) : TerminationResult :=
  let baseSalary := salary + bonuses
  let diffDaysTotal : ℤ := diffDaysTotalOf startDate endDate
  let endDay : ℕ := endDate.getDate
  let salaryBalance := (baseSalary / 30) * (endDay : ℚ)
  let thirteenthMonths : ℤ := max 0 (thirteenthMonthsRaw startDate endDate)
  let proportionalThirteenth := (baseSalary / 12) * (thirteenthMonths : ℚ)
  let finalVacationMonths : ℤ := finalVacationMonthsOf diffDaysTotal
  let proportionalVacation := (baseSalary / 12) * ((finalVacationMonths % 12 : ℤ) : ℚ)
  let vacationOneThird := proportionalVacation / 3
  let unusedVacationValue := (baseSalary / 30) * unusedVacationDays
  let unusedVacationOneThird := unusedVacationValue / 3
  let noticePeriod :=
    if type = TerminationType.semJustaCausa then baseSalary
    else if type = TerminationType.comumAcordo then baseSalary * 0.5
    else 0
  let fgtsFine :=
    if type = TerminationType.semJustaCausa then fgtsBalance * 0.4
    else if type = TerminationType.comumAcordo then fgtsBalance * 0.2
    else 0
  let grossTotal := salaryBalance + proportionalThirteenth + proportionalVacation
    + vacationOneThird + unusedVacationValue + unusedVacationOneThird
    + noticePeriod + fgtsFine
  let taxableAmount := salaryBalance + proportionalThirteenth
  let inss := calculateINSS taxableAmount
  let irrf := calculateIRRF taxableAmount inss 0
  { salaryBalance := salaryBalance
    proportionalThirteenth := proportionalThirteenth
    proportionalVacation := proportionalVacation + unusedVacationValue
    vacationOneThird := vacationOneThird + unusedVacationOneThird
    noticePeriod := noticePeriod
    fgtsFine := fgtsFine
    grossTotal := grossTotal
    inss := inss
    irrf := irrf
    netTotal := grossTotal - inss - irrf }

/-- The 13th-salary month count in the arithmetic form the spec states it
(§4.7 step 3): month difference plus an indicator for an early start day
minus an indicator for an early end day, written for comparison against
the code's `thirteenthMonthsRaw`.  The one-based month of a date is
`getMonth + 1`. -/
def specThirteenthMonths (startDate endDate : Date) : ℤ :=
  if endDate.getFullYear = startDate.getFullYear then
    ((endDate.getMonth : ℤ) + 1) - ((startDate.getMonth : ℤ) + 1)
      + (if startDate.getDate ≤ 15 then 1 else 0)
      - (if endDate.getDate < 15 then 1 else 0)
  else
    if 15 ≤ endDate.getDate then (endDate.getMonth : ℤ) + 1
    else ((endDate.getMonth : ℤ) + 1) - 1

/-- The proportional-vacation month count in the form the spec states it
(§4.7 step 4): `floor(totalDays/30)` plus one more month when
`totalDays mod 30 ≥ 15`, written for comparison against the code's
`finalVacationMonthsOf`. -/
def specFinalVacationMonths (totalDays : ℤ) : ℤ :=
  ⌊(totalDays : ℚ) / 30⌋ + (if 15 ≤ totalDays % 30 then 1 else 0)

/-- The code's 13th-salary month count agrees with the spec's arithmetic
form of it. -/
lemma thirteenthMonthsRaw_eq_spec (startDate endDate : Date) :
    thirteenthMonthsRaw startDate endDate = specThirteenthMonths startDate endDate := by
  simp only [thirteenthMonthsRaw, specThirteenthMonths]
  split_ifs <;> omega

/-- The code's proportional-vacation month count agrees with the spec's
arithmetic form of it. -/
lemma finalVacationMonthsOf_eq_spec (totalDays : ℤ) :
    finalVacationMonthsOf totalDays = specFinalVacationMonths totalDays := by
  simp only [finalVacationMonthsOf, specFinalVacationMonths]
  split_ifs <;> omega

/-- `calculateINSS` never exceeds `908.8586`, the value of the fourth-tier
formula at its upper boundary `7786.02`. -/
lemma calculateINSS_le (base : ℚ) : calculateINSS base ≤ 908.8586 := by
  simp only [calculateINSS]
  split_ifs <;> linarith

/-- `calculateIRRF` never returns a negative amount: the first tier is
exactly zero, and on every later bracket the affine tier formula is
non-negative. -/
lemma calculateIRRF_nonneg (salary inss dependents : ℚ) :
    0 ≤ calculateIRRF salary inss dependents := by
  simp only [calculateIRRF]
  split_ifs <;> linarith

/-- C1 counterexample: at the second tier boundary `calculateINSS` returns
`218.8212`, not the claimed `218.82`. -/
theorem inss_boundary_2666_68_ne_218_82 : calculateINSS 2666.68 ≠ 218.82 := by
  norm_num [calculateINSS]

/-- C1 (amended): the exact values of `calculateINSS` at the documented
tier boundaries are `105.90`, `218.8212`, `378.822`, `908.8586` and
`908.85`. -/
theorem inss_tier_boundary_values :
    calculateINSS 1412 = 105.90 ∧ calculateINSS 2666.68 = 218.8212 ∧
    calculateINSS 4000.03 = 378.822 ∧ calculateINSS 7786.02 = 908.8586 ∧
    calculateINSS 100000 = 908.85 := by
  refine ⟨?_, ?_, ?_, ?_, ?_⟩ <;> norm_num [calculateINSS]

/-- C4 counterexample: at the non-negative base `7786.02` the contribution
is `908.8586`, which exceeds the fixed ceiling constant `908.85`. -/
theorem inss_exceeds_ceiling_at_top_boundary :
    (0 : ℚ) ≤ 7786.02 ∧ ¬ calculateINSS 7786.02 ≤ 908.85 := by
  norm_num [calculateINSS]

/-- C4 (amended): `calculateINSS` is bounded above by `908.8586` for every
base, and the bound is attained at the top tier boundary `7786.02`. -/
theorem inss_bounded_by_908_8586 :
    (∀ base : ℚ, calculateINSS base ≤ 908.8586) ∧
    calculateINSS 7786.02 = 908.8586 :=
  ⟨calculateINSS_le, by norm_num [calculateINSS]⟩

/-- C5 counterexample: the negation of the claimed existence — no input at
all makes `calculateIRRF` return a strictly negative amount. -/
theorem irrf_never_negative :
    ¬ ∃ salary inss dependents : ℚ, calculateIRRF salary inss dependents < 0 :=
  fun ⟨s, i, d, h⟩ => absurd h (not_lt.2 (calculateIRRF_nonneg s i d))

/-- C5 (amended): for every input `calculateIRRF` returns a non-negative
amount; in particular the unclamped tier-2 formula is never negative on
its bracket, so the absence of a per-tier clamp never produces a negative
tax. -/
theorem irrf_nonneg (salary inss dependents : ℚ) :
    0 ≤ calculateIRRF salary inss dependents :=
  calculateIRRF_nonneg salary inss dependents

/-- C6: `calculateSalary` satisfies `netSalary = grossSalary - inss - irrf
- otherDiscounts`, `discounts = inss + irrf + otherDiscounts` and
`fgts = 0.08 × grossSalary` for every input. -/
theorem salary_result_invariants (grossSalary dependents otherDiscounts : ℚ) :
    (calculateSalary grossSalary dependents otherDiscounts).netSalary
      = grossSalary - (calculateSalary grossSalary dependents otherDiscounts).inss
        - (calculateSalary grossSalary dependents otherDiscounts).irrf
        - otherDiscounts
    ∧ (calculateSalary grossSalary dependents otherDiscounts).discounts
      = (calculateSalary grossSalary dependents otherDiscounts).inss
        + (calculateSalary grossSalary dependents otherDiscounts).irrf
        + otherDiscounts
    ∧ (calculateSalary grossSalary dependents otherDiscounts).fgts
      = 0.08 * grossSalary :=
  ⟨rfl, rfl, mul_comm grossSalary 0.08⟩

/-- C2 counterexample: with salary 30, 30 vacation days and 30 unused
days, the returned `vacationValue` is 60, not the current-period amount
`dailyRate × days = ((30 + 0) / 30) × 30 = 30`. -/
theorem vacation_value_includes_unused :
    (calculateVacation 30 30 false 0 30 0).vacationValue
      ≠ ((30 + 0 : ℚ) / 30) * 30 := by
  norm_num [calculateVacation]

/-- C2 (amended): the returned `vacationValue` and `oneThirdBonus` are the
current-period amounts plus the unused-vacation amounts at the same daily
rate; they equal the current-period amounts alone only when
`unusedVacationDays = 0`. -/
theorem vacation_value_fields (salary days : ℚ) (sellTenDays : Bool)
    (dependents unusedVacationDays bonuses : ℚ) :
    (calculateVacation salary days sellTenDays dependents unusedVacationDays
        bonuses).vacationValue
      = ((salary + bonuses) / 30) * days
        + ((salary + bonuses) / 30) * unusedVacationDays
    ∧ (calculateVacation salary days sellTenDays dependents unusedVacationDays
        bonuses).oneThirdBonus
      = (((salary + bonuses) / 30) * days) / 3
        + (((salary + bonuses) / 30) * unusedVacationDays) / 3 :=
  ⟨rfl, rfl⟩

/-- C8: varying only `unusedVacationDays` leaves `inss` and `irrf`
unchanged, and raises `grossTotal` and `netTotal` by exactly the untaxed
payout `u × dailyRate × 4/3`. -/
theorem vacation_unused_days_frame (salary days : ℚ) (sellTenDays : Bool)
    (dependents bonuses u : ℚ) :
    (calculateVacation salary days sellTenDays dependents u bonuses).inss
      = (calculateVacation salary days sellTenDays dependents 0 bonuses).inss
    ∧ (calculateVacation salary days sellTenDays dependents u bonuses).irrf
      = (calculateVacation salary days sellTenDays dependents 0 bonuses).irrf
    ∧ (calculateVacation salary days sellTenDays dependents u bonuses).grossTotal
      = (calculateVacation salary days sellTenDays dependents 0 bonuses).grossTotal
        + u * ((salary + bonuses) / 30) * (4 / 3)
    ∧ (calculateVacation salary days sellTenDays dependents u bonuses).netTotal
      = (calculateVacation salary days sellTenDays dependents 0 bonuses).netTotal
        + u * ((salary + bonuses) / 30) * (4 / 3) := by
  refine ⟨rfl, rfl, ?_, ?_⟩ <;> (simp only [calculateVacation]; ring)

/-- C3 counterexample: with equal start and end dates (zero elapsed days)
and 30 unused vacation days on salary 30, the returned
`proportionalVacation` is the unused payout 30, while the claimed step-4
formula evaluates to 0 there. -/
theorem termination_vacation_includes_unused :
    (calculateTermination 30 ⟨0, 2024, 0, 15⟩ ⟨0, 2024, 0, 15⟩
        TerminationType.semJustaCausa 0 30 0).proportionalVacation = 30
    ∧ ((30 + 0 : ℚ) / 12) * ((specFinalVacationMonths
        (diffDaysTotalOf ⟨0, 2024, 0, 15⟩ ⟨0, 2024, 0, 15⟩) % 12 : ℤ) : ℚ) = 0 := by
  constructor
  · norm_num [calculateTermination, diffDaysTotalOf, finalVacationMonthsOf]
  · norm_num [specFinalVacationMonths, diffDaysTotalOf]

/-- C3 (amended): the returned `proportionalVacation` and
`vacationOneThird` are the step-4 proportional amounts plus the
unused-vacation payout and its own third; they equal the step-4 amounts
alone only when `unusedVacationDays = 0`. -/
theorem termination_vacation_fields (salary : ℚ) (startDate endDate : Date)
    (type : TerminationType) (fgtsBalance unusedVacationDays bonuses : ℚ) :
    (calculateTermination salary startDate endDate type fgtsBalance
        unusedVacationDays bonuses).proportionalVacation
      = ((salary + bonuses) / 12)
          * ((specFinalVacationMonths (diffDaysTotalOf startDate endDate) % 12 : ℤ) : ℚ)
        + ((salary + bonuses) / 30) * unusedVacationDays
    ∧ (calculateTermination salary startDate endDate type fgtsBalance
        unusedVacationDays bonuses).vacationOneThird
      = (((salary + bonuses) / 12)
          * ((specFinalVacationMonths (diffDaysTotalOf startDate endDate) % 12 : ℤ) : ℚ)) / 3
        + (((salary + bonuses) / 30) * unusedVacationDays) / 3 := by
  rw [← finalVacationMonthsOf_eq_spec]
  exact ⟨rfl, rfl⟩

/-- C7: termination taxes are computed on the salary balance plus the
13th-salary portion only, with zero dependents, and the net total is the
gross total minus both taxes. -/
theorem termination_tax_base (salary : ℚ) (startDate endDate : Date)
    (type : TerminationType) (fgtsBalance unusedVacationDays bonuses : ℚ) :
    (calculateTermination salary startDate endDate type fgtsBalance
        unusedVacationDays bonuses).inss
      = calculateINSS
          ((calculateTermination salary startDate endDate type fgtsBalance
              unusedVacationDays bonuses).salaryBalance
            + (calculateTermination salary startDate endDate type fgtsBalance
                unusedVacationDays bonuses).proportionalThirteenth)
    ∧ (calculateTermination salary startDate endDate type fgtsBalance
        unusedVacationDays bonuses).irrf
      = calculateIRRF
          ((calculateTermination salary startDate endDate type fgtsBalance
              unusedVacationDays bonuses).salaryBalance
            + (calculateTermination salary startDate endDate type fgtsBalance
                unusedVacationDays bonuses).proportionalThirteenth)
          ((calculateTermination salary startDate endDate type fgtsBalance
              unusedVacationDays bonuses).inss)
          0
    ∧ (calculateTermination salary startDate endDate type fgtsBalance
        unusedVacationDays bonuses).netTotal
      = (calculateTermination salary startDate endDate type fgtsBalance
          unusedVacationDays bonuses).grossTotal
        - (calculateTermination salary startDate endDate type fgtsBalance
            unusedVacationDays bonuses).inss
        - (calculateTermination salary startDate endDate type fgtsBalance
            unusedVacationDays bonuses).irrf :=
  ⟨rfl, rfl, rfl⟩

/-- C9: the notice period and FGTS fine follow the four-variant type table
exactly: full base and 40% for dismissal without just cause, half base and
20% for mutual agreement, zero for just cause and for resignation. -/
theorem termination_type_table (salary : ℚ) (startDate endDate : Date)
    (fgtsBalance unusedVacationDays bonuses : ℚ) :
    ((calculateTermination salary startDate endDate
        TerminationType.semJustaCausa fgtsBalance unusedVacationDays
        bonuses).noticePeriod = salary + bonuses
      ∧ (calculateTermination salary startDate endDate
          TerminationType.semJustaCausa fgtsBalance unusedVacationDays
          bonuses).fgtsFine = 0.4 * fgtsBalance)
    ∧ ((calculateTermination salary startDate endDate
        TerminationType.comumAcordo fgtsBalance unusedVacationDays
        bonuses).noticePeriod = 0.5 * (salary + bonuses)
      ∧ (calculateTermination salary startDate endDate
          TerminationType.comumAcordo fgtsBalance unusedVacationDays
          bonuses).fgtsFine = 0.2 * fgtsBalance)
    ∧ ((calculateTermination salary startDate endDate
        TerminationType.comJustaCausa fgtsBalance unusedVacationDays
        bonuses).noticePeriod = 0
      ∧ (calculateTermination salary startDate endDate
          TerminationType.comJustaCausa fgtsBalance unusedVacationDays
          bonuses).fgtsFine = 0)
    ∧ ((calculateTermination salary startDate endDate
        TerminationType.pedidoDemissao fgtsBalance unusedVacationDays
        bonuses).noticePeriod = 0
      ∧ (calculateTermination salary startDate endDate
          TerminationType.pedidoDemissao fgtsBalance unusedVacationDays
          bonuses).fgtsFine = 0) :=
  ⟨⟨rfl, mul_comm fgtsBalance 0.4⟩,
   ⟨mul_comm (salary + bonuses) 0.5, mul_comm fgtsBalance 0.2⟩,
   ⟨rfl, rfl⟩, ⟨rfl, rfl⟩⟩

/-- C10: the 13th-salary proration follows the spec's month-count formula:
in-year month difference with the two day-15 adjustments, or the end month
count across a year boundary, clamped at zero, times one twelfth of the
base. -/
theorem termination_thirteenth_months (salary : ℚ) (startDate endDate : Date)
    (type : TerminationType) (fgtsBalance unusedVacationDays bonuses : ℚ) :
    (calculateTermination salary startDate endDate type fgtsBalance
        unusedVacationDays bonuses).proportionalThirteenth
      = ((salary + bonuses) / 12)
          * ((max 0 (specThirteenthMonths startDate endDate) : ℤ) : ℚ) := by
  rw [← thirteenthMonthsRaw_eq_spec]
  rfl

end CLT
